import Mathlib

/-!
Verification of the Design Tutor backend's guide generator
(`src/main.py`): the keyword Detector `_detect_design`, the Step Builder
`_build_steps`, and the request handlers `create_template` and
`generate_guide`. Python strings become `String`, Python lists become
`List`, the small string-keyed dicts inside the detected spec become
association lists, and exceptions become `Option`/`Except`.
-/

/-- Tests whether the first character list stands at the head of the second
(the character-level core of a substring scan). -/
def leadsChars : List Char → List Char → Bool
  | [], _ => true
  | _ :: _, [] => false
  | a :: as, b :: bs => a == b && leadsChars as bs

/-- Tests whether the first list occurs contiguously inside the second. -/
def occursIn (needle : List Char) : List Char → Bool
  | [] => needle.isEmpty
  | c :: rest => leadsChars needle (c :: rest) || occursIn needle rest

/-- Python's substring test `needle in hay` on `str` values. -/
def substr (needle hay : String) : Bool :=
  occursIn needle.data hay.data

/-- Python's `str.lower` for the ASCII inputs this service handles, written
as a character map on the underlying list; `lower_eq_toLower` identifies it
with the library's `String.toLower`, and this form lets concrete inputs
evaluate inside the kernel. -/
def lower (s : String) : String :=
  ⟨s.data.map Char.toLower⟩

theorem lower_eq_toLower (s : String) : lower s = s.toLower :=
  (String.map_eq Char.toLower s).symm

/-- An entry of the detected `structure` list (src/main.py lines 136-142):
a small string-keyed dict such as `{"type": "background", "style": "solid"}`,
modelled as an association list. -/
abbrev StructElem : Type := List (String × String)

/-- The dict returned by `_detect_design` (src/main.py lines 144-149).
Its four fixed keys become fields; the key `structure` is a Lean keyword, so
that field is named `struct`. -/
structure DesignSpec where
  layout : String
  palette : List String
  fonts : List String
  struct : List StructElem
deriving DecidableEq, Repr

/-- Translation of `_detect_design` (src/main.py lines 123-149): lower-case
the input, pick the layout by a first-match keyword chain, the palette and
fonts by one keyword test each, and emit the fixed five-entry structure. -/
def _detect_design (name : String) : DesignSpec :=
  let name_l := lower name
  let layout :=
    if ["story", "reel", "vertical", "instagram story"].any (fun k => substr k name_l) then "story"
    else if ["square", "instagram", "post"].any (fun k => substr k name_l) then "square"
    else if ["a4", "flyer", "print"].any (fun k => substr k name_l) then "a4"
    else "poster"
  let palette :=
    if ["tech", "futur", "robot"].any (fun k => substr k name_l) then
      ["#0B0F1A", "#FF7A00", "#FFFFFF"]
    else
      ["#111827", "#E5E7EB", "#FF4D4D"]
  let fonts :=
    if substr "modern" name_l || substr "tech" name_l then ["Inter", "Manrope"]
    else ["Poppins", "Montserrat"]
  let struct : List StructElem := [
    [("type", "background"), ("style", if substr "grad" name_l then "gradient" else "solid")],
    [("type", "image"), ("position", if layout != "story" then "center" else "top")],
    [("type", "headline"), ("weight", "700"), ("case", "upper")],
    [("type", "subhead"), ("weight", "500")],
    [("type", "cta"), ("variant", "pill")]]
  { layout := layout, palette := palette, fonts := fonts, struct := struct }

/-- Translation of the `size_map` lookup (src/main.py lines 152-158):
`size_map.get(d.get("layout", "poster"), (1080, 1350))`, a fixed table with
default `(1080, 1350)` for a layout outside the four keys. -/
def size_map (layout : String) : Nat × Nat :=
  if layout == "story" then (1080, 1920)
  else if layout == "square" then (1080, 1080)
  else if layout == "poster" then (1080, 1350)
  else if layout == "a4" then (2480, 3508)
  else (1080, 1350)

/-- Tool-specific three-line opening block chosen by the `if tool == ...`
chain of `_build_steps` (src/main.py lines 170-199); the Canva/default branch
interpolates the canvas size. -/
def tool_intro (tool : String) (w h : Nat) : List String :=
  if tool == "photoshop" then
    ["Open Photoshop.",
     "File > New.",
     "Use Shape layers and Smart Objects for non-destructive editing."]
  else if tool == "illustrator" then
    ["Open Illustrator.",
     "File > New (RGB).",
     "Use rectangles and Type tool; keep elements on separate layers."]
  else
    ["Open Canva.",
     "Create a custom size " ++ toString w ++ "x" ++ toString h ++ ".",
     "Add a gradient or color rectangle as background."]

/-- Tool-specific two-line closing block from the same chain
(src/main.py lines 170-199). -/
def tool_suffix (tool : String) : List String :=
  if tool == "photoshop" then
    ["Group layers (BG, Image, Text, CTA).",
     "Save as PSD and export PNG."]
  else if tool == "illustrator" then
    ["Convert shapes to symbols for reusability.",
     "Save as AI and export PNG."]
  else
    ["Use Position > Tidy up to align elements.",
     "Download PNG and save the design as a template."]

/-- Translation of `_build_steps` (src/main.py lines 151-201). The Python
subscript chains (`d["structure"][0]["style"]`, `d["palette"][1]`,
`d["fonts"][-1]`, ...) can raise `IndexError`/`KeyError` on a malformed dict;
an escaping exception is modelled as `none`. `d["palette"][0]` is read here
unconditionally while Python skips it when the background is a gradient; the
results agree because `d["palette"][1]` is always read, so Python fails on any
palette shorter than two entries exactly when this definition does. -/
def _build_steps (tool : String) (d : DesignSpec) : Option (List String) := do
  let w := (size_map d.layout).1
  let h := (size_map d.layout).2
  let style ← (d.struct[0]?).bind (List.lookup "style")
  let position ← (d.struct[1]?).bind (List.lookup "position")
  let font0 ← d.fonts[0]?
  let fontLast ← d.fonts.getLast?
  let palette0 ← d.palette[0]?
  let palette1 ← d.palette[1]?
  let common := [
    "Create a new document sized " ++ toString w ++ "x" ++ toString h ++ " px.",
    "Set background to " ++ (if style == "gradient" then "a subtle radial gradient" else palette0) ++ ".",
    "Place the main image " ++ (if position == "center" then "centered" else "near the top") ++ " and size it proportionally.",
    "Add a bold headline using " ++ font0 ++ " and align left.",
    "Add supporting text with " ++ fontLast ++ " and reduce tracking slightly.",
    "Create a call-to-action button using " ++ palette1 ++ " and white text.",
    "Export as high-quality PNG (and save the source file as a reusable template)."]
  return tool_intro tool w h ++ common ++ tool_suffix tool

/-- Shape invariant of a detected spec (spec section 3): the structure list
carries the five fixed entry types in order together with the background
style and the image position, the palette has three entries and the font
list has two. -/
abbrev SpecShape (d : DesignSpec) : Prop :=
  d.palette.length = 3 ∧
  d.fonts.length = 2 ∧
  d.struct.map (List.lookup "type") =
    [some "background", some "image", some "headline", some "subhead", some "cta"] ∧
  ((d.struct[0]?).bind (List.lookup "style")).isSome = true ∧
  ((d.struct[1]?).bind (List.lookup "position")).isSome = true

example : (_detect_design "Modern Tech Poster").fonts = ["Inter", "Manrope"] := by decide
example : (_detect_design "Story square flyer").layout = "story" := by decide
example : SpecShape (_detect_design "") := by decide

theorem tool_intro_length (tool : String) (w h : Nat) : (tool_intro tool w h).length = 3 := by
  unfold tool_intro
  repeat' split
  all_goals rfl

theorem tool_suffix_length (tool : String) : (tool_suffix tool).length = 2 := by
  unfold tool_suffix
  repeat' split
  all_goals rfl

/-- Every detected spec destructures into three palette entries, two fonts and
the literal five-entry structure, with the background style and image position
as the only input-dependent attribute values. -/
theorem detect_fields (name : String) :
    ∃ p0 p1 p2 f0 f1 st ps,
      (_detect_design name).palette = [p0, p1, p2] ∧
      (_detect_design name).fonts = [f0, f1] ∧
      (_detect_design name).struct =
        [[("type", "background"), ("style", st)],
         [("type", "image"), ("position", ps)],
         [("type", "headline"), ("weight", "700"), ("case", "upper")],
         [("type", "subhead"), ("weight", "500")],
         [("type", "cta"), ("variant", "pill")]] := by
  unfold _detect_design
  dsimp only
  split <;> split <;> exact ⟨_, _, _, _, _, _, _, rfl, rfl, rfl⟩

/-- A spec satisfying the shape invariant destructures into the entries the
Step Builder reads. -/
theorem spec_shape_fields (d : DesignSpec) (h : SpecShape d) :
    ∃ p0 p1 p2 f0 f1 e0 e1 e2 e3 e4 st ps,
      d.palette = [p0, p1, p2] ∧ d.fonts = [f0, f1] ∧
      d.struct = [e0, e1, e2, e3, e4] ∧
      List.lookup "style" e0 = some st ∧ List.lookup "position" e1 = some ps := by
  obtain ⟨hp, hf, hs, hst, hps⟩ := h
  obtain ⟨p0, p1, p2, hpal⟩ := List.length_eq_three.mp hp
  obtain ⟨f0, f1, hfon⟩ := List.length_eq_two.mp hf
  rcases hstr : d.struct with _ | ⟨e0, _ | ⟨e1, _ | ⟨e2, _ | ⟨e3, _ | ⟨e4, _ | ⟨e5, t⟩⟩⟩⟩⟩⟩ <;>
      rw [hstr] at hs <;>
      first
      | (exfalso; simp at hs; done)
      | skip
  rw [hstr] at hst hps
  simp only [List.getElem?_cons_zero, List.getElem?_cons_succ, Option.some_bind] at hst hps
  obtain ⟨st, hstv⟩ := Option.isSome_iff_exists.mp hst
  obtain ⟨ps, hpsv⟩ := Option.isSome_iff_exists.mp hps
  exact ⟨p0, p1, p2, f0, f1, e0, e1, e2, e3, e4, st, ps, hpal, hfon, rfl, hstv, hpsv⟩

/-- Evaluation of the Step Builder on a destructured spec: the result is the
tool's opening block, the seven interpolated common lines, then the tool's
closing block. -/
theorem build_steps_eval (tool : String) (d : DesignSpec)
    (p0 p1 p2 f0 f1 : String) (e0 e1 e2 e3 e4 : StructElem) (st ps : String)
    (hpal : d.palette = [p0, p1, p2]) (hfon : d.fonts = [f0, f1])
    (hstr : d.struct = [e0, e1, e2, e3, e4])
    (hst : List.lookup "style" e0 = some st)
    (hps : List.lookup "position" e1 = some ps) :
    _build_steps tool d = some (
      tool_intro tool (size_map d.layout).1 (size_map d.layout).2 ++
      ["Create a new document sized " ++ toString (size_map d.layout).1 ++ "x" ++
         toString (size_map d.layout).2 ++ " px.",
       "Set background to " ++ (if st == "gradient" then "a subtle radial gradient" else p0) ++ ".",
       "Place the main image " ++ (if ps == "center" then "centered" else "near the top") ++
         " and size it proportionally.",
       "Add a bold headline using " ++ f0 ++ " and align left.",
       "Add supporting text with " ++ f1 ++ " and reduce tracking slightly.",
       "Create a call-to-action button using " ++ p1 ++ " and white text.",
       "Export as high-quality PNG (and save the source file as a reusable template)."] ++
      tool_suffix tool) := by
  unfold _build_steps
  simp [hpal, hfon, hstr, hst, hps]

theorem char_toNat_ofNat_valid (n : Nat) (h : n.isValidChar) : (Char.ofNat n).toNat = n := by
  unfold Char.ofNat
  rw [dif_pos h]
  rfl

theorem char_toLower_eq (c : Char) :
    c.toLower = if c.toNat ≥ 65 ∧ c.toNat ≤ 90 then Char.ofNat (c.toNat + 32) else c := rfl

theorem char_toLower_not_upper (c : Char) :
    ¬(c.toLower.toNat ≥ 65 ∧ c.toLower.toNat ≤ 90) := by
  rw [char_toLower_eq]
  by_cases h : c.toNat ≥ 65 ∧ c.toNat ≤ 90
  · rw [if_pos h]
    rw [char_toNat_ofNat_valid (c.toNat + 32) (Or.inl (by omega))]
    omega
  · rw [if_neg h]
    exact h

theorem char_toLower_idem (c : Char) : c.toLower.toLower = c.toLower := by
  rw [char_toLower_eq c.toLower, if_neg (char_toLower_not_upper c)]

theorem lower_idem (s : String) : lower (lower s) = lower s := by
  unfold lower
  congr 1
  rw [List.map_map]
  exact List.map_congr_left (fun c _ => char_toLower_idem c)

/-- The Step Builder as the API reaches it: `generate_guide` lower-cases the
requested tool name before dispatching (src/main.py line 99:
`_build_steps(tool.lower(), detected)`). -/
def buildSteps_api (tool : String) (d : DesignSpec) : Option (List String) :=
  _build_steps (lower tool) d

/-- C1: any input whose lower-casing contains one of "story", "reel",
"vertical" or "instagram story" is classified with layout "story"; the rule
is unconditional, so it wins over the square, a4 and poster rules even when
their keywords also occur in the input. -/
theorem detect_story_priority (name : String)
    (h : (["story", "reel", "vertical", "instagram story"].any
        (fun k => substr k (lower name))) = true) :
    (_detect_design name).layout = "story" := by
  simp [_detect_design, h]

theorem detect_story_priority_witness :
    ((["story", "reel", "vertical", "instagram story"].any
        (fun k => substr k (lower "Instagram Story square flyer post print"))) = true) ∧
    (_detect_design "Instagram Story square flyer post print").layout = "story" :=
  ⟨by decide, detect_story_priority "Instagram Story square flyer post print" (by decide)⟩

theorem tool_intro_fallback (tool : String) (w h : Nat)
    (h1 : tool ≠ "photoshop") (h2 : tool ≠ "illustrator") :
    tool_intro tool w h = tool_intro "canva" w h := by
  unfold tool_intro
  rw [if_neg (by simp [h1]), if_neg (by simp [h2])]
  rfl

theorem tool_suffix_fallback (tool : String)
    (h1 : tool ≠ "photoshop") (h2 : tool ≠ "illustrator") :
    tool_suffix tool = tool_suffix "canva" := by
  unfold tool_suffix
  rw [if_neg (by simp [h1]), if_neg (by simp [h2])]
  rfl

/-- C3: a tool name other than "photoshop" and "illustrator" takes the
default branch, so the Step Builder produces exactly the Canva step list and
raises no error. -/
theorem build_steps_unknown_tool (tool : String) (d : DesignSpec)
    (h1 : tool ≠ "photoshop") (h2 : tool ≠ "illustrator") :
    _build_steps tool d = _build_steps "canva" d := by
  have hi : ∀ w h, tool_intro tool w h = tool_intro "canva" w h :=
    fun w h => tool_intro_fallback tool w h h1 h2
  have hs : tool_suffix tool = tool_suffix "canva" := tool_suffix_fallback tool h1 h2
  unfold _build_steps
  simp only [hi, hs]

theorem build_steps_unknown_tool_witness :
    _build_steps "unknown-tool" (_detect_design "") = _build_steps "canva" (_detect_design "") :=
  build_steps_unknown_tool "unknown-tool" (_detect_design "") (by decide) (by decide)

/-- C4: the tool name is lower-cased before it is matched against the three
known keys, so the Step Builder as the API invokes it is insensitive to the
casing of the tool name, and "Photoshop" selects the Photoshop branch rather
than the Canva fallback. -/
theorem build_steps_api_lowercases (tool : String) (d : DesignSpec) :
    buildSteps_api tool d = buildSteps_api (lower tool) d ∧
    buildSteps_api "Photoshop" d = _build_steps "photoshop" d := by
  constructor
  · unfold buildSteps_api
    rw [lower_idem]
  · unfold buildSteps_api
    rw [show lower "Photoshop" = "photoshop" from by decide]

/-- C5: an input matching no keyword at any step resolves to the default at
every step: poster layout, palette B, font pair B, solid background and a
centered image; the function is total, so no error path exists. -/
theorem detect_unmatched_default (name : String)
    (h1 : (["story", "reel", "vertical", "instagram story"].any
        (fun k => substr k (lower name))) = false)
    (h2 : (["square", "instagram", "post"].any (fun k => substr k (lower name))) = false)
    (h3 : (["a4", "flyer", "print"].any (fun k => substr k (lower name))) = false)
    (h4 : (["tech", "futur", "robot"].any (fun k => substr k (lower name))) = false)
    (h5 : (substr "modern" (lower name) || substr "tech" (lower name)) = false)
    (h6 : substr "grad" (lower name) = false) :
    _detect_design name =
      { layout := "poster",
        palette := ["#111827", "#E5E7EB", "#FF4D4D"],
        fonts := ["Poppins", "Montserrat"],
        struct := [
          [("type", "background"), ("style", "solid")],
          [("type", "image"), ("position", "center")],
          [("type", "headline"), ("weight", "700"), ("case", "upper")],
          [("type", "subhead"), ("weight", "500")],
          [("type", "cta"), ("variant", "pill")]] } := by
  simp [_detect_design, h1, h2, h3, h4, h5, h6]

theorem detect_unmatched_default_witness :
    _detect_design "" =
      { layout := "poster",
        palette := ["#111827", "#E5E7EB", "#FF4D4D"],
        fonts := ["Poppins", "Montserrat"],
        struct := [
          [("type", "background"), ("style", "solid")],
          [("type", "image"), ("position", "center")],
          [("type", "headline"), ("weight", "700"), ("case", "upper")],
          [("type", "subhead"), ("weight", "500")],
          [("type", "cta"), ("variant", "pill")]] } :=
  detect_unmatched_default "" (by decide) (by decide) (by decide) (by decide) (by decide)
    (by decide)

/-- Paired evaluation: for two tools the Step Builder emits the same shared
seven-line common block between the tool-specific opening and closing. -/
theorem build_steps_common_pair (t1 t2 : String) (d : DesignSpec) (h : SpecShape d) :
    ∃ c : List String, c.length = 7 ∧
      _build_steps t1 d =
        some (tool_intro t1 (size_map d.layout).1 (size_map d.layout).2 ++ c ++ tool_suffix t1) ∧
      _build_steps t2 d =
        some (tool_intro t2 (size_map d.layout).1 (size_map d.layout).2 ++ c ++ tool_suffix t2) := by
  obtain ⟨p0, p1, p2, f0, f1, e0, e1, e2, e3, e4, st, ps, hpal, hfon, hstr, hst, hps⟩ :=
    spec_shape_fields d h
  refine ⟨_, ?_,
    build_steps_eval t1 d p0 p1 p2 f0 f1 e0 e1 e2 e3 e4 st ps hpal hfon hstr hst hps,
    build_steps_eval t2 d p0 p1 p2 f0 f1 e0 e1 e2 e3 e4 st ps hpal hfon hstr hst hps⟩
  rfl

/-- C2: on a spec of the documented shape the Step Builder succeeds for every
tool string and returns the tool's three-line opening block, the shared
seven-line common block, then the tool's two-line closing block, in that
order, for a total of opening + 7 + closing = 12 lines - in particular 12
lines for each of photoshop, illustrator and canva. -/
theorem build_steps_twelve_lines (tool : String) (d : DesignSpec) (h : SpecShape d) :
    (_build_steps tool d).map List.length =
      some ((tool_intro tool (size_map d.layout).1 (size_map d.layout).2).length + 7 +
        (tool_suffix tool).length) ∧
    (_build_steps tool d).map List.length = some 12 ∧
    (tool_intro tool (size_map d.layout).1 (size_map d.layout).2).length = 3 ∧
    (tool_suffix tool).length = 2 ∧
    (_build_steps tool d).map (List.take 3) =
      some (tool_intro tool (size_map d.layout).1 (size_map d.layout).2) ∧
    (_build_steps tool d).map (List.drop 10) = some (tool_suffix tool) ∧
    (_build_steps tool d).map (fun l => (l.drop 3).take 7) =
      (_build_steps "canva" d).map (fun l => (l.drop 3).take 7) := by
  obtain ⟨c, hc, he, hec⟩ := build_steps_common_pair tool "canva" d h
  rw [he, hec]
  refine ⟨?_, ?_, tool_intro_length tool _ _, tool_suffix_length tool, ?_, ?_, ?_⟩
  · simp [List.length_append, hc]
    omega
  · simp [List.length_append, hc, tool_intro_length, tool_suffix_length]
  · simp only [Option.map_some', Option.some.injEq, List.append_assoc]
    exact List.take_left' (tool_intro_length tool _ _)
  · simp only [Option.map_some', Option.some.injEq]
    exact List.drop_left' (by simp [List.length_append, tool_intro_length, hc])
  · simp only [Option.map_some', Option.some.injEq, List.append_assoc]
    rw [List.drop_left' (tool_intro_length tool _ _),
      List.drop_left' (tool_intro_length "canva" _ _),
      List.take_left' hc, List.take_left' hc]

theorem build_steps_twelve_lines_witness :
    (_build_steps "photoshop" (_detect_design "")).map List.length = some 12 :=
  (build_steps_twelve_lines "photoshop" (_detect_design "") (by decide)).2.1

theorem steps_getElem (tool : String) (w h : Nat) (c s : List String) (n : Nat) (hn : 3 ≤ n) :
    ((tool_intro tool w h ++ c) ++ s)[n]? = (c ++ s)[n - 3]? := by
  rw [List.append_assoc]
  rw [List.getElem?_append_right (by rw [tool_intro_length]; exact hn)]
  rw [tool_intro_length]

/-- C6: the canvas dimensions come from the fixed layout table with poster's
1080x1350 as the default for an unknown layout, and the first common
instruction line states them, so it reads "2480x3508 px" for layout a4 and
"1080x1080 px" for layout square. -/
theorem build_steps_canvas_size (tool : String) (d : DesignSpec) (h : SpecShape d) :
    size_map "story" = (1080, 1920) ∧
    size_map "square" = (1080, 1080) ∧
    size_map "poster" = (1080, 1350) ∧
    size_map "a4" = (2480, 3508) ∧
    (d.layout ≠ "story" → d.layout ≠ "square" → d.layout ≠ "poster" → d.layout ≠ "a4" →
      size_map d.layout = (1080, 1350)) ∧
    (_build_steps tool d).bind (fun l => l[3]?) =
      some ("Create a new document sized " ++ toString (size_map d.layout).1 ++ "x" ++
        toString (size_map d.layout).2 ++ " px.") ∧
    (d.layout = "a4" →
      (_build_steps tool d).bind (fun l => l[3]?) =
          some "Create a new document sized 2480x3508 px." ∧
      substr "2480x3508 px" (((_build_steps tool d).bind (fun l => l[3]?)).getD "") = true) ∧
    (d.layout = "square" →
      (_build_steps tool d).bind (fun l => l[3]?) =
          some "Create a new document sized 1080x1080 px." ∧
      substr "1080x1080 px" (((_build_steps tool d).bind (fun l => l[3]?)).getD "") = true) := by
  obtain ⟨p0, p1, p2, f0, f1, e0, e1, e2, e3, e4, st, ps, hpal, hfon, hstr, hst, hps⟩ :=
    spec_shape_fields d h
  have he := build_steps_eval tool d p0 p1 p2 f0 f1 e0 e1 e2 e3 e4 st ps hpal hfon hstr hst hps
  have hline : (_build_steps tool d).bind (fun l => l[3]?) =
      some ("Create a new document sized " ++ toString (size_map d.layout).1 ++ "x" ++
        toString (size_map d.layout).2 ++ " px.") := by
    rw [he, Option.some_bind, steps_getElem tool _ _ _ _ 3 (by omega)]
    rfl
  refine ⟨rfl, rfl, rfl, rfl, ?_, hline, ?_, ?_⟩
  · intro ha hb hc hd
    simp [size_map, ha, hb, hc, hd]
  · intro hy
    rw [hy] at hline
    rw [hline]
    exact ⟨by decide, by decide⟩
  · intro hy
    rw [hy] at hline
    rw [hline]
    exact ⟨by decide, by decide⟩

theorem build_steps_canvas_size_witness :
    (_build_steps "illustrator" (_detect_design "a4 flyer")).bind (fun l => l[3]?) =
      some "Create a new document sized 2480x3508 px." :=
  ((build_steps_canvas_size "illustrator" (_detect_design "a4 flyer")
    (by decide)).2.2.2.2.2.2.1 (by decide)).1

/-- C7: every detected spec has exactly the five structure entries
background, image, headline, subhead, cta in this order, three palette
entries and two fonts, and the generated steps read them positionally: the
headline line uses fonts[0], the supporting-text line uses the last font and
the call-to-action line uses palette[1]. -/
theorem detect_shape_and_consumers (name tool : String) :
    (_detect_design name).struct.map (List.lookup "type") =
      [some "background", some "image", some "headline", some "subhead", some "cta"] ∧
    (_detect_design name).struct.length = 5 ∧
    (_detect_design name).palette.length = 3 ∧
    (_detect_design name).fonts.length = 2 ∧
    (_build_steps tool (_detect_design name)).bind (fun l => l[6]?) =
      some ("Add a bold headline using " ++ (_detect_design name).fonts.getD 0 "" ++
        " and align left.") ∧
    (_build_steps tool (_detect_design name)).bind (fun l => l[7]?) =
      some ("Add supporting text with " ++ ((_detect_design name).fonts.getLast?.getD "") ++
        " and reduce tracking slightly.") ∧
    (_build_steps tool (_detect_design name)).bind (fun l => l[8]?) =
      some ("Create a call-to-action button using " ++
        (_detect_design name).palette.getD 1 "" ++ " and white text.") := by
  obtain ⟨p0, p1, p2, f0, f1, st, ps, hpal, hfon, hstr⟩ := detect_fields name
  have he := build_steps_eval tool (_detect_design name) p0 p1 p2 f0 f1 _ _ _ _ _ st ps
    hpal hfon hstr rfl rfl
  refine ⟨?_, ?_, ?_, ?_, ?_, ?_, ?_⟩
  · rw [hstr]
    rfl
  · rw [hstr]
    rfl
  · rw [hpal]
    rfl
  · rw [hfon]
    rfl
  · rw [he, Option.some_bind, steps_getElem tool _ _ _ _ 6 (by omega), hfon]
    rfl
  · rw [he, Option.some_bind, steps_getElem tool _ _ _ _ 7 (by omega), hfon]
    rfl
  · rw [he, Option.some_bind, steps_getElem tool _ _ _ _ 8 (by omega), hpal]
    rfl

theorem build_steps_detect_isSome (tool name : String) :
    (_build_steps tool (_detect_design name)).isSome = true := by
  obtain ⟨p0, p1, p2, f0, f1, st, ps, hpal, hfon, hstr⟩ := detect_fields name
  rw [build_steps_eval tool _ p0 p1 p2 f0 f1 _ _ _ _ _ st ps hpal hfon hstr rfl rfl]
  rfl

/-- Request body of POST /api/guides (src/main.py lines 89-92); `tools`
defaults to the three known tools. -/
structure GuideRequest where
  source_name : String
  image_url : Option String := none
  tools : List String := ["photoshop", "canva", "illustrator"]
deriving DecidableEq, Repr

/-- Response of POST /api/guides (src/main.py lines 111-117); `id` is the
store identifier, absent when the store write failed. -/
structure GuideResponse where
  id : Option String
  source_name : String
  detected : DesignSpec
  steps : List (String × List String)
  image_url : Option String
deriving DecidableEq, Repr

/-- Key assignment on a Python dict with string keys: replace the value in
place when the key is present, append the pair otherwise. -/
def dictInsert : List (String × List String) → String → List String → List (String × List String)
  | [], k, v => [(k, v)]
  | (k0, v0) :: rest, k, v =>
    if k0 == k then (k0, v) :: rest else (k0, v0) :: dictInsert rest k v

/-- Modelled from the spec: `create_document` lives in `database.py`, which
is not among the sources; spec section 4.4 gives its contract as
`createDocument(kind, payload) -> id`, and it may raise. The outcome of the
single store write a handler performs is therefore passed in as
`createResult` (`Except.ok i` for a successful insert returning identifier
`i`, `Except.error msg` for a raised exception with message `msg`). With the
store abstracted this way, `generate_guide` is the handler of POST
/api/guides (src/main.py lines 94-117): it detects once, builds steps once
per lower-cased tool into a map keyed by tool name, and swallows a store
failure into a null identifier (the `try/except` of lines 106-109 becomes
the `match`). `_build_steps` never raises on a freshly detected spec
(`build_steps_detect_isSome`), so the `.getD []` fallback is never taken. -/
def generate_guide (createResult : Except String String) (req : GuideRequest) : GuideResponse :=
  let detected := _detect_design req.source_name
  let steps_map := req.tools.foldl
    (fun m tool => dictInsert m (lower tool) ((_build_steps (lower tool) detected).getD [])) []
  let guide_id : Option String :=
    match createResult with
    | Except.ok i => some i
    | Except.error _ => none
  { id := guide_id, source_name := req.source_name, detected := detected,
    steps := steps_map, image_url := req.image_url }

/-- C8: a store failure during guide creation is swallowed rather than
propagated - the identifier comes back absent while the computed content
(source name, detected spec, per-tool steps, image url) is identical to what
a successful write returns. -/
theorem generate_guide_swallows_store_failure (req : GuideRequest) (e gid : String) :
    (generate_guide (Except.error e) req).id = none ∧
    (generate_guide (Except.ok gid) req).id = some gid ∧
    (generate_guide (Except.error e) req).source_name = req.source_name ∧
    (generate_guide (Except.error e) req).detected = _detect_design req.source_name ∧
    (generate_guide (Except.error e) req).image_url = req.image_url ∧
    (generate_guide (Except.error e) req).steps = (generate_guide (Except.ok gid) req).steps ∧
    (generate_guide (Except.error e) req).detected =
      (generate_guide (Except.ok gid) req).detected ∧
    (generate_guide (Except.error e) req).source_name =
      (generate_guide (Except.ok gid) req).source_name ∧
    (generate_guide (Except.error e) req).image_url =
      (generate_guide (Except.ok gid) req).image_url :=
  ⟨rfl, rfl, rfl, rfl, rfl, rfl, rfl, rfl, rfl⟩

/-- Response body of a successful POST /api/templates (src/main.py line 70). -/
structure TemplateCreateResponse where
  id : String
  status : String
deriving DecidableEq, Repr

/-- The HTTPException raised by the handlers: a status code and a detail
message (src/main.py line 72). -/
structure HTTPError where
  status_code : Nat
  detail : String
deriving DecidableEq, Repr

/-- Modelled from the spec: as in `generate_guide`, the store write
`create_document("template", payload)` (database.py, absent from the
sources) is abstracted by its outcome, and the payload plays no role in the
handler beyond being handed to the store. `create_template` is the handler
of POST /api/templates (src/main.py lines 66-72): a successful insert
returns `{"id": ..., "status": "created"}`, and a raised exception becomes
an HTTP 500 whose detail is the exception text. -/
def create_template (createResult : Except String String) :
    Except HTTPError TemplateCreateResponse :=
  match createResult with
  | Except.ok template_id => Except.ok { id := template_id, status := "created" }
  | Except.error e => Except.error { status_code := 500, detail := e }

/-- C9: template creation returns id plus status "created" on a successful
store write, and surfaces a store failure as HTTP 500 carrying the
underlying message - unlike guide creation, which swallows it. -/
theorem create_template_surfaces_store_failure (tid e : String) :
    create_template (Except.ok tid) = Except.ok { id := tid, status := "created" } ∧
    create_template (Except.error e) = Except.error { status_code := 500, detail := e } :=
  ⟨rfl, rfl⟩

/-- C10: the Step Builder reads exactly seven values of the spec - layout,
the background style, the image position, the first and last font and the
first two palette entries - so two specs that agree on those produce
identical step lists for every tool, whatever their third palette entry or
headline/subhead/cta attributes. -/
theorem build_steps_seven_inputs (tool : String) (s1 s2 : DesignSpec)
    (hlay : s1.layout = s2.layout)
    (hstyle : (s1.struct[0]?).bind (List.lookup "style") =
      (s2.struct[0]?).bind (List.lookup "style"))
    (hpos : (s1.struct[1]?).bind (List.lookup "position") =
      (s2.struct[1]?).bind (List.lookup "position"))
    (hf0 : s1.fonts[0]? = s2.fonts[0]?)
    (hfl : s1.fonts.getLast? = s2.fonts.getLast?)
    (hp0 : s1.palette[0]? = s2.palette[0]?)
    (hp1 : s1.palette[1]? = s2.palette[1]?) :
    _build_steps tool s1 = _build_steps tool s2 := by
  unfold _build_steps
  simp only [hlay, hstyle, hpos, hf0, hfl, hp0, hp1]

/-- Witness spec: the detected defaults for a square layout. -/
def specAgreeA : DesignSpec :=
  { layout := "square",
    palette := ["#111827", "#E5E7EB", "#FF4D4D"],
    fonts := ["Poppins", "Montserrat"],
    struct := [
      [("type", "background"), ("style", "solid")],
      [("type", "image"), ("position", "center")],
      [("type", "headline"), ("weight", "700"), ("case", "upper")],
      [("type", "subhead"), ("weight", "500")],
      [("type", "cta"), ("variant", "pill")]] }

/-- Witness spec: agrees with `specAgreeA` on the seven values the Step
Builder reads but has a different third palette entry and different
headline, subhead and cta attributes. -/
def specAgreeB : DesignSpec :=
  { layout := "square",
    palette := ["#111827", "#E5E7EB", "#00FF00"],
    fonts := ["Poppins", "Montserrat"],
    struct := [
      [("type", "background"), ("style", "solid")],
      [("type", "image"), ("position", "center")],
      [("type", "headline"), ("weight", "900"), ("case", "lower")],
      [("type", "subhead"), ("weight", "300")],
      [("type", "cta"), ("variant", "ghost")]] }

theorem build_steps_seven_inputs_witness :
    specAgreeA ≠ specAgreeB ∧
    _build_steps "photoshop" specAgreeA = _build_steps "photoshop" specAgreeB :=
  ⟨by decide, build_steps_seven_inputs "photoshop" specAgreeA specAgreeB (by decide) (by decide)
    (by decide) (by decide) (by decide) (by decide) (by decide)⟩
